import Mathlib

/-!
Shallow embedding of the lesson-builder action layer.

The source is a server-side action module for a lesson-planning app:
five tables (LessonPlans, LessonObjectives, LessonSteps, LessonMaterials,
LessonJobs) and one handler per operation.  Each handler first resolves the
current user (throwing UNAUTHORIZED when absent), then performs ownership
checks and single-table reads/writes, throwing NOT_FOUND on any missing or
non-owned entity.

Modelling choices:
  - the database is a record of lists, one per table, plus auto-increment
    counters for primary keys;
  - every handler is a pure function from (optional user, current time,
    input, db) to a pair of an Except result and the resulting db; an
    error thrown before any write returns the db unchanged;
  - JavaScript truthiness of optional integer inputs (if (input.id)) is
    modelled by the function truthyNat: none and some 0 are falsy;
  - opaque JSON payloads on jobs (input / output) are modelled as
    uninterpreted strings, since no operation inspects their shape;
  - timestamps are naturals (the value of new Date() at call time is the
    now argument);
  - the table schemas of src/db/tables.ts are also embedded as lists of
    column descriptors, to state schema-level claims.
-/

inductive PlanStatus where
  | draft
  | published
  | archived
deriving DecidableEq, Repr

inductive JobStatus where
  | pending
  | completed
  | failed
deriving DecidableEq, Repr

inductive JobType where
  | outline
  | objectives
  | steps
  | materials
  | full
deriving DecidableEq, Repr

/-- A row of LessonPlans. -/
structure Plan where
  id : Nat
  ownerId : String
  title : String
  subject : Option String := none
  gradeLevel : Option String := none
  overview : Option String := none
  durationMinutes : Option Nat := none
  tags : Option String := none
  status : PlanStatus := .draft
  createdAt : Nat := 0
  updatedAt : Nat := 0
deriving DecidableEq, Repr

/-- A row of LessonObjectives. -/
structure Objective where
  id : Nat
  planId : Nat
  text : String
  order : Nat := 1
  createdAt : Nat := 0
deriving DecidableEq, Repr

/-- A row of LessonSteps. -/
structure Step where
  id : Nat
  planId : Nat
  title : Option String := none
  description : String
  durationMinutes : Option Nat := none
  order : Nat := 1
  createdAt : Nat := 0
deriving DecidableEq, Repr

/-- A row of LessonMaterials.  Note: the table has no order column. -/
structure Material where
  id : Nat
  planId : Nat
  name : String
  type : Option String := none
  url : Option String := none
  createdAt : Nat := 0
deriving DecidableEq, Repr

/-- A row of LessonJobs.  input and output are opaque JSON payloads,
modelled as uninterpreted strings. -/
structure Job where
  id : Nat
  planId : Option Nat := none
  userId : Option String := none
  jobType : JobType := .full
  input : Option String := none
  output : Option String := none
  status : JobStatus := .pending
  createdAt : Nat := 0
deriving DecidableEq, Repr

/-- The persistent store: one list per table plus auto-increment counters. -/
structure DB where
  plans : List Plan := []
  objectives : List Objective := []
  steps : List Step := []
  materials : List Material := []
  jobs : List Job := []
  nextPlanId : Nat := 1
  nextObjectiveId : Nat := 1
  nextStepId : Nat := 1
  nextMaterialId : Nat := 1
  nextJobId : Nat := 1
deriving DecidableEq, Repr

/-- The two error kinds the handlers throw via ActionError. -/
inductive ActionErr where
  | unauthorized
  | notFound
deriving DecidableEq, Repr

/-- requireUser: extracts the current user from the request context,
throwing UNAUTHORIZED when absent. -/
def requireUser (user : Option String) : Except ActionErr String :=
  match user with
  | none => .error .unauthorized
  | some u => .ok u

/-- JavaScript truthiness of an optional integer: undefined and 0 are
falsy, every other integer is truthy. -/
def truthyNat (o : Option Nat) : Bool :=
  match o with
  | none => false
  | some n => n != 0

/-- Merge for partial updates: a provided value overwrites, an absent one
leaves the stored value untouched. -/
def mergeOpt {α : Type} (newVal oldVal : Option α) : Option α :=
  match newVal with
  | some v => some v
  | none => oldVal

/-- The select-where-limit(1) pattern: first row matching the predicate. -/
def firstRow {α : Type} (rows : List α) (pred : α → Bool) : Option α :=
  rows.find? pred

/-- Input of createPlan (after zod validation). -/
structure CreatePlanInput where
  title : String
  subject : Option String := none
  gradeLevel : Option String := none
  overview : Option String := none
  durationMinutes : Option Nat := none
  tags : Option String := none
  status : Option PlanStatus := none

/-- createPlan handler: inserts a plan owned by the caller, status
defaulting to draft, timestamps set to now. -/
def createPlan (user : Option String) (now : Nat) (inp : CreatePlanInput)
    (db : DB) : Except ActionErr Plan × DB :=
  match requireUser user with
  | .error e => (.error e, db)
  | .ok uid =>
    let plan : Plan :=
      { id := db.nextPlanId
        ownerId := uid
        title := inp.title
        subject := inp.subject
        gradeLevel := inp.gradeLevel
        overview := inp.overview
        durationMinutes := inp.durationMinutes
        tags := inp.tags
        status := inp.status.getD .draft
        createdAt := now
        updatedAt := now }
    (.ok plan, { db with plans := db.plans ++ [plan],
                         nextPlanId := db.nextPlanId + 1 })

/-- Input of updatePlan (after zod validation). -/
structure UpdatePlanInput where
  id : Nat
  title : Option String := none
  subject : Option String := none
  gradeLevel : Option String := none
  overview : Option String := none
  durationMinutes : Option Nat := none
  tags : Option String := none
  status : Option PlanStatus := none

/-- The row predicate of updatePlan: id and ownerId must both match. -/
def planOwnedBy (planId : Nat) (uid : String) (p : Plan) : Bool :=
  p.id == planId && p.ownerId == uid

/-- Applies the explicitly-present fields of an updatePlan input to a row
and bumps updatedAt (the code path taken when updateData is non-empty). -/
def applyPlanUpdate (inp : UpdatePlanInput) (now : Nat) (p : Plan) : Plan :=
  { p with
    title := inp.title.getD p.title
    subject := mergeOpt inp.subject p.subject
    gradeLevel := mergeOpt inp.gradeLevel p.gradeLevel
    overview := mergeOpt inp.overview p.overview
    durationMinutes := mergeOpt inp.durationMinutes p.durationMinutes
    tags := mergeOpt inp.tags p.tags
    status := inp.status.getD p.status
    updatedAt := now }

/-- Whether any recognized optional field is present in the input
(Object.keys(updateData).length different from 0). -/
def planUpdateNonempty (inp : UpdatePlanInput) : Bool :=
  inp.title.isSome || inp.subject.isSome || inp.gradeLevel.isSome ||
  inp.overview.isSome || inp.durationMinutes.isSome || inp.tags.isSome ||
  inp.status.isSome

/-- updatePlan handler: verifies the plan exists and is owned by the
caller, applies only the explicitly-present fields; when no field is
present, returns the existing row unchanged without touching the store. -/
def updatePlan (user : Option String) (now : Nat) (inp : UpdatePlanInput)
    (db : DB) : Except ActionErr Plan × DB :=
  match requireUser user with
  | .error e => (.error e, db)
  | .ok uid =>
    match firstRow db.plans (planOwnedBy inp.id uid) with
    | none => (.error .notFound, db)
    | some existing =>
      if planUpdateNonempty inp then
        let updated := applyPlanUpdate inp now existing
        (.ok updated,
         { db with plans := db.plans.map (fun p =>
             if planOwnedBy inp.id uid p then applyPlanUpdate inp now p
             else p) })
      else
        (.ok existing, db)

/-- archivePlan handler: sets status to archived and updatedAt to now on
the caller-owned row; NOT_FOUND when no row matched. -/
def archivePlan (user : Option String) (now : Nat) (planId : Nat)
    (db : DB) : Except ActionErr Plan × DB :=
  match requireUser user with
  | .error e => (.error e, db)
  | .ok uid =>
    let setArch := fun (p : Plan) =>
      { p with status := PlanStatus.archived, updatedAt := now }
    let db' := { db with plans := db.plans.map (fun p =>
      if planOwnedBy planId uid p then setArch p else p) }
    match firstRow db.plans (planOwnedBy planId uid) with
    | none => (.error .notFound, db')
    | some p => (.ok (setArch p), db')

/-- listMyPlans handler: all plans owned by the caller, optionally
filtered by exact status match. -/
def listMyPlans (user : Option String) (statusFilter : Option PlanStatus)
    (db : DB) : Except ActionErr (List Plan) × DB :=
  match requireUser user with
  | .error e => (.error e, db)
  | .ok uid =>
    let plans := db.plans.filter (fun p => p.ownerId == uid)
    let filtered :=
      match statusFilter with
      | some s => plans.filter (fun p => p.status == s)
      | none => plans
    (.ok filtered, db)

/-- getPlanWithDetails handler: a caller-owned plan plus all of its
objectives, steps and materials. -/
def getPlanWithDetails (user : Option String) (planId : Nat) (db : DB) :
    Except ActionErr (Plan × List Objective × List Step × List Material) × DB :=
  match requireUser user with
  | .error e => (.error e, db)
  | .ok uid =>
    match firstRow db.plans (planOwnedBy planId uid) with
    | none => (.error .notFound, db)
    | some plan =>
      let objs := db.objectives.filter (fun o => o.planId == planId)
      let stps := db.steps.filter (fun s => s.planId == planId)
      let mats := db.materials.filter (fun m => m.planId == planId)
      (.ok (plan, objs, stps, mats), db)

/-- Input of saveObjective (after zod validation). -/
structure SaveObjectiveInput where
  id : Option Nat := none
  planId : Nat
  text : String
  order : Option Nat := none

/-- saveObjective handler: verifies plan ownership, then either updates an
existing objective (id truthy; its stored planId must equal the supplied
planId) or inserts a new one. -/
def saveObjective (user : Option String) (now : Nat)
    (inp : SaveObjectiveInput) (db : DB) : Except ActionErr Objective × DB :=
  match requireUser user with
  | .error e => (.error e, db)
  | .ok uid =>
    match firstRow db.plans (planOwnedBy inp.planId uid) with
    | none => (.error .notFound, db)
    | some _plan =>
      if truthyNat inp.id then
        let i := inp.id.getD 0
        match firstRow db.objectives (fun o => o.id == i) with
        | none => (.error .notFound, db)
        | some existing =>
          if existing.planId != inp.planId then
            (.error .notFound, db)
          else
            let setBase := fun (o : Objective) =>
              { o with planId := inp.planId, text := inp.text,
                       order := inp.order.getD 1 }
            (.ok (setBase existing),
             { db with objectives := db.objectives.map (fun o =>
                 if o.id == i then setBase o else o) })
      else
        let newObj : Objective :=
          { id := db.nextObjectiveId
            planId := inp.planId
            text := inp.text
            order := inp.order.getD 1
            createdAt := now }
        (.ok newObj,
         { db with objectives := db.objectives ++ [newObj],
                   nextObjectiveId := db.nextObjectiveId + 1 })

/-- Input of the three delete operations: a child id and its planId. -/
structure DeleteChildInput where
  id : Nat
  planId : Nat

/-- deleteObjective handler: verifies plan ownership, then deletes the
objective matched by both id and planId; NOT_FOUND when nothing matched. -/
def deleteObjective (user : Option String) (inp : DeleteChildInput)
    (db : DB) : Except ActionErr Objective × DB :=
  match requireUser user with
  | .error e => (.error e, db)
  | .ok uid =>
    match firstRow db.plans (planOwnedBy inp.planId uid) with
    | none => (.error .notFound, db)
    | some _plan =>
      let cond := fun (o : Objective) => o.id == inp.id && o.planId == inp.planId
      let db' := { db with objectives := db.objectives.filter (fun o => !(cond o)) }
      match firstRow db.objectives cond with
      | none => (.error .notFound, db')
      | some deleted => (.ok deleted, db')

/-- Input of saveStep (after zod validation). -/
structure SaveStepInput where
  id : Option Nat := none
  planId : Nat
  title : Option String := none
  description : String
  durationMinutes : Option Nat := none
  order : Option Nat := none

/-- saveStep handler: same shape as saveObjective. -/
def saveStep (user : Option String) (now : Nat) (inp : SaveStepInput)
    (db : DB) : Except ActionErr Step × DB :=
  match requireUser user with
  | .error e => (.error e, db)
  | .ok uid =>
    match firstRow db.plans (planOwnedBy inp.planId uid) with
    | none => (.error .notFound, db)
    | some _plan =>
      if truthyNat inp.id then
        let i := inp.id.getD 0
        match firstRow db.steps (fun s => s.id == i) with
        | none => (.error .notFound, db)
        | some existing =>
          if existing.planId != inp.planId then
            (.error .notFound, db)
          else
            let setBase := fun (s : Step) =>
              { s with planId := inp.planId,
                       title := mergeOpt inp.title s.title,
                       description := inp.description,
                       durationMinutes := mergeOpt inp.durationMinutes s.durationMinutes,
                       order := inp.order.getD 1 }
            (.ok (setBase existing),
             { db with steps := db.steps.map (fun s =>
                 if s.id == i then setBase s else s) })
      else
        let newStep : Step :=
          { id := db.nextStepId
            planId := inp.planId
            title := inp.title
            description := inp.description
            durationMinutes := inp.durationMinutes
            order := inp.order.getD 1
            createdAt := now }
        (.ok newStep,
         { db with steps := db.steps ++ [newStep],
                   nextStepId := db.nextStepId + 1 })

/-- deleteStep handler: same shape as deleteObjective. -/
def deleteStep (user : Option String) (inp : DeleteChildInput)
    (db : DB) : Except ActionErr Step × DB :=
  match requireUser user with
  | .error e => (.error e, db)
  | .ok uid =>
    match firstRow db.plans (planOwnedBy inp.planId uid) with
    | none => (.error .notFound, db)
    | some _plan =>
      let cond := fun (s : Step) => s.id == inp.id && s.planId == inp.planId
      let db' := { db with steps := db.steps.filter (fun s => !(cond s)) }
      match firstRow db.steps cond with
      | none => (.error .notFound, db')
      | some deleted => (.ok deleted, db')

/-- Input of saveMaterial (after zod validation).  The schema accepts no
order field. -/
structure SaveMaterialInput where
  id : Option Nat := none
  planId : Nat
  name : String
  type : Option String := none
  url : Option String := none

/-- saveMaterial handler: same shape as saveObjective, over name, type
and url; there is no order field anywhere in the material path. -/
def saveMaterial (user : Option String) (now : Nat) (inp : SaveMaterialInput)
    (db : DB) : Except ActionErr Material × DB :=
  match requireUser user with
  | .error e => (.error e, db)
  | .ok uid =>
    match firstRow db.plans (planOwnedBy inp.planId uid) with
    | none => (.error .notFound, db)
    | some _plan =>
      if truthyNat inp.id then
        let i := inp.id.getD 0
        match firstRow db.materials (fun m => m.id == i) with
        | none => (.error .notFound, db)
        | some existing =>
          if existing.planId != inp.planId then
            (.error .notFound, db)
          else
            let setBase := fun (m : Material) =>
              { m with planId := inp.planId,
                       name := inp.name,
                       type := mergeOpt inp.type m.type,
                       url := mergeOpt inp.url m.url }
            (.ok (setBase existing),
             { db with materials := db.materials.map (fun m =>
                 if m.id == i then setBase m else m) })
      else
        let newMat : Material :=
          { id := db.nextMaterialId
            planId := inp.planId
            name := inp.name
            type := inp.type
            url := inp.url
            createdAt := now }
        (.ok newMat,
         { db with materials := db.materials ++ [newMat],
                   nextMaterialId := db.nextMaterialId + 1 })

/-- deleteMaterial handler: same shape as deleteObjective. -/
def deleteMaterial (user : Option String) (inp : DeleteChildInput)
    (db : DB) : Except ActionErr Material × DB :=
  match requireUser user with
  | .error e => (.error e, db)
  | .ok uid =>
    match firstRow db.plans (planOwnedBy inp.planId uid) with
    | none => (.error .notFound, db)
    | some _plan =>
      let cond := fun (m : Material) => m.id == inp.id && m.planId == inp.planId
      let db' := { db with materials := db.materials.filter (fun m => !(cond m)) }
      match firstRow db.materials cond with
      | none => (.error .notFound, db')
      | some deleted => (.ok deleted, db')

/-- Input of createJob (after zod validation). -/
structure CreateJobInput where
  planId : Option Nat := none
  jobType : Option JobType := none
  input : Option String := none
  output : Option String := none
  status : Option JobStatus := none

/-- createJob handler: when planId is truthy, verifies plan ownership;
inserts a job with jobType defaulting to full and status defaulting to
pending, createdAt set to now. -/
def createJob (user : Option String) (now : Nat) (inp : CreateJobInput)
    (db : DB) : Except ActionErr Job × DB :=
  match requireUser user with
  | .error e => (.error e, db)
  | .ok uid =>
    let ownershipOk :=
      if truthyNat inp.planId then
        (firstRow db.plans (planOwnedBy (inp.planId.getD 0) uid)).isSome
      else true
    if ownershipOk then
      let job : Job :=
        { id := db.nextJobId
          planId := inp.planId
          userId := some uid
          jobType := inp.jobType.getD .full
          input := inp.input
          output := inp.output
          status := inp.status.getD .pending
          createdAt := now }
      (.ok job, { db with jobs := db.jobs ++ [job],
                          nextJobId := db.nextJobId + 1 })
    else
      (.error .notFound, db)

/-- Input of updateJob (after zod validation). -/
structure UpdateJobInput where
  id : Nat
  output : Option String := none
  status : Option JobStatus := none

/-- updateJob handler: verifies the job exists and belongs to the caller
by userId; applies only explicitly-present fields among output and
status; with no field present, returns the existing row unchanged. -/
def updateJob (user : Option String) (inp : UpdateJobInput) (db : DB) :
    Except ActionErr Job × DB :=
  match requireUser user with
  | .error e => (.error e, db)
  | .ok uid =>
    match firstRow db.jobs (fun j => j.id == inp.id && j.userId == some uid) with
    | none => (.error .notFound, db)
    | some existing =>
      if inp.output.isSome || inp.status.isSome then
        let setFields := fun (j : Job) =>
          { j with output := mergeOpt inp.output j.output,
                   status := inp.status.getD j.status }
        (.ok (setFields existing),
         { db with jobs := db.jobs.map (fun j =>
             if j.id == inp.id then setFields j else j) })
      else
        (.ok existing, db)

/-- Input of listJobs (after zod validation). -/
structure ListJobsInput where
  planId : Option Nat := none
  status : Option JobStatus := none

/-- The per-job predicate of listJobs: a job with a truthy planId must
have it in the allowed set; a plan-less job always passes the plan part;
the status part is an exact match when a status filter is present. -/
def jobMatches (allowed : List Nat) (statusFilter : Option JobStatus)
    (j : Job) : Bool :=
  (if truthyNat j.planId then allowed.contains (j.planId.getD 0) else true) &&
  (match statusFilter with
   | some s => j.status == s
   | none => true)

/-- listJobs handler: restricts the caller-owned plans by the planId
filter when truthy (NOT_FOUND when that leaves none), then filters the
caller-owned jobs by jobMatches over the allowed plan ids. -/
def listJobs (user : Option String) (inp : ListJobsInput) (db : DB) :
    Except ActionErr (List Job) × DB :=
  match requireUser user with
  | .error e => (.error e, db)
  | .ok uid =>
    let plans0 := db.plans.filter (fun p => p.ownerId == uid)
    let plans :=
      if truthyNat inp.planId then
        plans0.filter (fun p => p.id == inp.planId.getD 0)
      else plans0
    if truthyNat inp.planId && plans.isEmpty then
      (.error .notFound, db)
    else
      let allowed := plans.map Plan.id
      let owned := db.jobs.filter (fun j => j.userId == some uid)
      (.ok (owned.filter (jobMatches allowed inp.status)), db)

/-- A column descriptor of src/db/tables.ts. -/
structure Column where
  name : String
  optional : Bool := false
  defaultNat : Option Nat := none
  defaultStr : Option String := none
  defaultNow : Bool := false
  primaryKey : Bool := false
  referencesPlans : Bool := false
deriving DecidableEq, Repr

/-- Columns of the LessonPlans table. -/
def LessonPlansColumns : List Column :=
  [ { name := "id", primaryKey := true },
    { name := "ownerId" },
    { name := "title" },
    { name := "subject", optional := true },
    { name := "gradeLevel", optional := true },
    { name := "overview", optional := true },
    { name := "durationMinutes", optional := true },
    { name := "tags", optional := true },
    { name := "status", defaultStr := some "draft" },
    { name := "createdAt", defaultNow := true },
    { name := "updatedAt", defaultNow := true } ]

/-- Columns of the LessonObjectives table. -/
def LessonObjectivesColumns : List Column :=
  [ { name := "id", primaryKey := true },
    { name := "planId", referencesPlans := true },
    { name := "text" },
    { name := "order", defaultNat := some 1 },
    { name := "createdAt", defaultNow := true } ]

/-- Columns of the LessonSteps table. -/
def LessonStepsColumns : List Column :=
  [ { name := "id", primaryKey := true },
    { name := "planId", referencesPlans := true },
    { name := "title", optional := true },
    { name := "description" },
    { name := "durationMinutes", optional := true },
    { name := "order", defaultNat := some 1 },
    { name := "createdAt", defaultNow := true } ]

/-- Columns of the LessonMaterials table. -/
def LessonMaterialsColumns : List Column :=
  [ { name := "id", primaryKey := true },
    { name := "planId", referencesPlans := true },
    { name := "name" },
    { name := "type", optional := true },
    { name := "url", optional := true },
    { name := "createdAt", defaultNow := true } ]

/-- Columns of the LessonJobs table. -/
def LessonJobsColumns : List Column :=
  [ { name := "id", primaryKey := true },
    { name := "planId", optional := true, referencesPlans := true },
    { name := "userId", optional := true },
    { name := "jobType", defaultStr := some "full" },
    { name := "input", optional := true },
    { name := "output", optional := true },
    { name := "status", defaultStr := some "completed" },
    { name := "createdAt", defaultNow := true } ]

/-- Well-formedness of a store: primary keys are pairwise distinct within
each table and positive (auto-increment keys start at 1). -/
def DB.WF (db : DB) : Prop :=
  (db.plans.map Plan.id).Nodup ∧
  (db.objectives.map Objective.id).Nodup ∧
  (db.steps.map Step.id).Nodup ∧
  (db.materials.map Material.id).Nodup ∧
  (db.jobs.map Job.id).Nodup ∧
  (∀ p ∈ db.plans, 0 < p.id) ∧
  (∀ o ∈ db.objectives, 0 < o.id) ∧
  (∀ s ∈ db.steps, 0 < s.id) ∧
  (∀ m ∈ db.materials, 0 < m.id) ∧
  (∀ j ∈ db.jobs, 0 < j.id)

instance (db : DB) : Decidable db.WF := by
  unfold DB.WF
  infer_instance

/-! Concrete fixtures used by counterexamples and witnesses. -/

/-- A plan owned by alice. -/
def planAlice : Plan :=
  { id := 1, ownerId := "alice", title := "Photosynthesis" }

/-- A second plan owned by alice. -/
def planAlice2 : Plan :=
  { id := 2, ownerId := "alice", title := "Algebra" }

/-- An objective of planAlice. -/
def objAlice : Objective :=
  { id := 1, planId := 1, text := "Learn", order := 2 }

/-- A step of planAlice. -/
def stepAlice : Step :=
  { id := 1, planId := 1, description := "Intro", order := 2 }

/-- A material of planAlice. -/
def matAlice : Material :=
  { id := 1, planId := 1, name := "Slides" }

/-- A job of alice tied to planAlice. -/
def jobAlice : Job :=
  { id := 1, planId := some 1, userId := some "alice",
    jobType := .outline, status := .pending }

/-- A store holding alice's two plans, one child of each kind and a job. -/
def dbAlice : DB :=
  { plans := [planAlice, planAlice2]
    objectives := [objAlice]
    steps := [stepAlice]
    materials := [matAlice]
    jobs := [jobAlice]
    nextPlanId := 3
    nextObjectiveId := 2
    nextStepId := 2
    nextMaterialId := 2
    nextJobId := 2 }

/-- A plan-less job of alice (planId absent). -/
def orphanJob : Job :=
  { id := 1, userId := some "alice" }

/-- A store holding alice's plan and one plan-less job. -/
def dbOrphan : DB :=
  { plans := [planAlice], jobs := [orphanJob], nextPlanId := 2, nextJobId := 2 }

/-- A plan owned by bob. -/
def planBob : Plan :=
  { id := 1, ownerId := "bob", title := "Bobs plan" }

/-- An objective whose planId references bob's plan. -/
def objBob : Objective :=
  { id := 1, planId := 1, text := "Bobs objective" }

/-- A step whose planId references bob's plan. -/
def stepBob : Step :=
  { id := 1, planId := 1, description := "Bobs step" }

/-- A material whose planId references bob's plan. -/
def matBob : Material :=
  { id := 1, planId := 1, name := "Bobs material" }

/-- A store where every child record belongs to bob's plan. -/
def dbBob : DB :=
  { plans := [planBob]
    objectives := [objBob]
    steps := [stepBob]
    materials := [matBob]
    nextPlanId := 2
    nextObjectiveId := 2
    nextStepId := 2
    nextMaterialId := 2 }

/-- An archived plan owned by alice. -/
def archivedPlan : Plan :=
  { id := 1, ownerId := "alice", title := "Old unit", status := .archived }

/-- A store holding only the archived plan. -/
def dbArchived : DB :=
  { plans := [archivedPlan], nextPlanId := 2 }

/-- The job createJob inserts into dbAlice when jobType and status are
omitted. -/
def jobDefaulted : Job :=
  { id := 2, userId := some "alice", jobType := .full,
    status := .pending, createdAt := 4 }

/-- dbAlice after that insert. -/
def dbAliceJob : DB :=
  { dbAlice with jobs := dbAlice.jobs ++ [jobDefaulted], nextJobId := 3 }

/-! Helper lemmas about find? under key uniqueness. -/

/-- find? returns the designated element when it is the unique satisfier
of the predicate among the list members. -/
theorem find_unique {α : Type} (l : List α) (pred : α → Bool) (x : α)
    (hx : x ∈ l) (hpx : pred x = true)
    (huniq : ∀ y ∈ l, pred y = true → y = x) :
    l.find? pred = some x := by
  induction l with
  | nil => cases hx
  | cons a t ih =>
    rcases List.mem_cons.mp hx with h | h
    · subst h
      simp [List.find?_cons, hpx]
    · by_cases hpa : pred a = true
      · have ha : a = x := huniq a (List.mem_cons_self a t) hpa
        subst ha
        simp [List.find?_cons, hpa]
      · rw [List.find?_cons_of_neg _ (by simpa using hpa)]
        exact ih h (fun y hy hpy => huniq y (List.mem_cons_of_mem a hy) hpy)

/-- With pairwise-distinct plan ids, the select of a plan row by id and
owner finds exactly the member plan carrying that id and owner. -/
theorem find_plan_owned (db : DB) (hnd : (db.plans.map Plan.id).Nodup)
    (P : Plan) (hP : P ∈ db.plans) (u : String) (hown : P.ownerId = u) :
    firstRow db.plans (planOwnedBy P.id u) = some P := by
  apply find_unique db.plans _ P hP (by simp [planOwnedBy, hown])
  intro y hy hpy
  have hid : y.id = P.id := by
    have := (Bool.and_eq_true _ _).mp hpy
    simpa [planOwnedBy] using this.1
  exact List.inj_on_of_nodup_map hnd hy hP hid

/-- With pairwise-distinct plan ids, selecting a member plan's id under a
different owner finds nothing. -/
theorem find_plan_other_owner (db : DB)
    (hnd : (db.plans.map Plan.id).Nodup)
    (P : Plan) (hP : P ∈ db.plans) (u : String) (hown : P.ownerId ≠ u) :
    firstRow db.plans (planOwnedBy P.id u) = none := by
  rw [firstRow, List.find?_eq_none]
  intro p hp hpred
  have h1 : p.id = P.id ∧ p.ownerId = u := by
    have := (Bool.and_eq_true _ _).mp hpred
    constructor
    · simpa using this.1
    · simpa using this.2
  have hpP : p = P := List.inj_on_of_nodup_map hnd hp hP h1.1
  exact hown (hpP ▸ h1.2)

/-- With pairwise-distinct keys, find? by a member's key returns that
member. -/
theorem find_by_key {α : Type} (key : α → Nat) (l : List α)
    (hnd : (l.map key).Nodup) (x : α) (hx : x ∈ l) :
    firstRow l (fun y => key y == key x) = some x := by
  apply find_unique l _ x hx (by simp)
  intro y hy hpy
  exact List.inj_on_of_nodup_map hnd hy hx (by simpa using hpy)

/-! Claim C1: plan-less jobs under a planId filter in listJobs. -/

/-- C1 counterexample: alice owns plan 1 and has one plan-less job; a
listJobs call with the specific planId filter 1 still returns the
plan-less job, so a job whose planId is absent is not excluded when a
specific planId filter is applied. -/
theorem C1_counterexample :
    orphanJob.planId = none ∧
    (listJobs (some "alice") { planId := some 1 } dbOrphan).fst =
      .ok [orphanJob] :=
  ⟨rfl, rfl⟩

/-- C1 (amended): whenever listJobs succeeds for an authenticated caller,
every plan-less job (planId absent) owned by that caller and passing the
status filter is included in the result, including when a specific planId
filter is applied; the convention is always-included, not excluded. -/
theorem C1_theorem (user : Option String) (uid : String)
    (huser : requireUser user = .ok uid)
    (inp : ListJobsInput) (db : DB) (out : List Job)
    (hok : (listJobs user inp db).fst = .ok out)
    (j : Job) (hj : j ∈ db.jobs) (huid : j.userId = some uid)
    (hplanless : j.planId = none)
    (hstatus : ∀ s, inp.status = some s → j.status = s) :
    j ∈ out := by
  have hmem : ∀ allowed : List Nat,
      j ∈ List.filter (jobMatches allowed inp.status)
            (List.filter (fun x => x.userId == some uid) db.jobs) := by
    intro allowed
    refine List.mem_filter.mpr ⟨List.mem_filter.mpr ⟨hj, by simp [huid]⟩, ?_⟩
    unfold jobMatches
    rw [hplanless]
    cases hst : inp.status with
    | none => simp [truthyNat]
    | some s => simp [truthyNat, hstatus s hst]
  unfold listJobs at hok
  rw [huser] at hok
  simp only at hok
  split at hok
  case isTrue h1 =>
    split at hok
    case isTrue h2 => simp at hok
    case isFalse h2 =>
      simp only [Except.ok.injEq] at hok
      subst hok
      exact hmem _
  case isFalse h1 =>
    rw [Bool.not_eq_true] at h1
    rw [h1] at hok
    simp only [Bool.false_and, Bool.false_eq_true, if_false, Except.ok.injEq] at hok
    subst hok
    exact hmem _

/-- C1 witness: the amended statement instantiated on the concrete store
dbOrphan with the planId filter 1. -/
theorem C1_witness : orphanJob ∈ [orphanJob] :=
  C1_theorem (some "alice") "alice" rfl { planId := some 1 } dbOrphan
    [orphanJob] rfl orphanJob (by simp [dbOrphan]) rfl rfl
    (fun s hs => by cases hs)

/-! Claim C3: whether archived is a terminal plan status. -/

/-- C3 counterexample: alice's plan 1 is archived, yet updatePlan with an
explicit status field of draft succeeds and returns the plan with status
draft, so an operation of the system does transition an archived plan
back to draft. -/
theorem C3_counterexample :
    archivedPlan.status = PlanStatus.archived ∧
    (updatePlan (some "alice") 9 { id := 1, status := some .draft }
        dbArchived).fst =
      .ok { archivedPlan with status := .draft, updatedAt := 9 } :=
  ⟨rfl, rfl⟩

/-- C3 (amended): archived is not terminal: archivePlan itself never
leaves archived, but updatePlan invoked by the owner with an explicit
status field sets the plan status to that value even when the plan is
currently archived, so draft and published are reachable again from
archived via updatePlan. -/
theorem C3_theorem (u : String) (now : Nat) (db : DB)
    (hnd : (db.plans.map Plan.id).Nodup)
    (P : Plan) (hP : P ∈ db.plans) (hown : P.ownerId = u)
    (_harch : P.status = PlanStatus.archived)
    (inp : UpdatePlanInput) (hid : inp.id = P.id) (st : PlanStatus)
    (hst : inp.status = some st) :
    ∃ db', updatePlan (some u) now inp db =
        (.ok (applyPlanUpdate inp now P), db') ∧
      (applyPlanUpdate inp now P).status = st := by
  have hfind : firstRow db.plans (planOwnedBy inp.id u) = some P := by
    rw [hid]
    exact find_plan_owned db hnd P hP u hown
  refine ⟨{ db with plans := db.plans.map (fun p =>
      if planOwnedBy inp.id u p then applyPlanUpdate inp now p else p) },
    ?_, ?_⟩
  · unfold updatePlan requireUser
    dsimp only
    rw [hfind]
    simp [planUpdateNonempty, hst]
  · simp [applyPlanUpdate, hst]

/-- C3 witness: the amended statement instantiated on the archived plan
of dbArchived, reverting it to draft. -/
theorem C3_witness :
    ∃ db', updatePlan (some "alice") 9 { id := 1, status := some .draft }
        dbArchived =
        (.ok (applyPlanUpdate { id := 1, status := some .draft } 9
          archivedPlan), db') ∧
      (applyPlanUpdate { id := 1, status := some .draft } 9
        archivedPlan).status = .draft :=
  C3_theorem "alice" 9 dbArchived (by decide) archivedPlan
    (by simp [dbArchived]) rfl rfl { id := 1, status := some .draft } rfl
    .draft rfl

/-! Claim C4: an order field on materials. -/

/-- C4 counterexample: the LessonMaterials table has no column named
order at all, so material records are not ordered via an order integer
field and saveMaterial has nothing to default to 1. -/
theorem C4_counterexample :
    ¬ ∃ c ∈ LessonMaterialsColumns, c.name = "order" := by decide

/-- C4 (amended): objectives and steps each carry an order column with
default 1, and saveObjective and saveStep store order 1 when it is
omitted from the input; materials have no order column, and the
saveMaterial input accepts no order value. -/
theorem C4_theorem :
    (∃ c ∈ LessonObjectivesColumns, c.name = "order" ∧
      c.defaultNat = some 1) ∧
    (∃ c ∈ LessonStepsColumns, c.name = "order" ∧ c.defaultNat = some 1) ∧
    (¬ ∃ c ∈ LessonMaterialsColumns, c.name = "order") ∧
    (saveObjective (some "alice") 3 { planId := 1, text := "count" }
        dbAlice).fst =
      .ok { id := 2, planId := 1, text := "count", order := 1,
            createdAt := 3 } ∧
    (saveStep (some "alice") 3 { planId := 1, description := "warmup" }
        dbAlice).fst =
      .ok { id := 2, planId := 1, description := "warmup", order := 1,
            createdAt := 3 } :=
  ⟨by decide, by decide, by decide, rfl, rfl⟩

/-! Claim C5: empty partial updates are no-ops. -/

/-- C5: updatePlan with no recognized optional field present, and
updateJob with neither output nor status present, return the existing
record unchanged and leave the store untouched; in particular updatedAt
is not advanced. -/
theorem C5_theorem (u : String) (now : Nat) (db : DB)
    (hpnd : (db.plans.map Plan.id).Nodup)
    (hjnd : (db.jobs.map Job.id).Nodup) :
    (∀ inp : UpdatePlanInput, inp.title = none → inp.subject = none →
      inp.gradeLevel = none → inp.overview = none →
      inp.durationMinutes = none → inp.tags = none → inp.status = none →
      ∀ P ∈ db.plans, P.id = inp.id → P.ownerId = u →
        updatePlan (some u) now inp db = (.ok P, db)) ∧
    (∀ inp : UpdateJobInput, inp.output = none → inp.status = none →
      ∀ j ∈ db.jobs, j.id = inp.id → j.userId = some u →
        updateJob (some u) inp db = (.ok j, db)) := by
  constructor
  · intro inp ht hs hg ho hd htg hst P hP hid hown
    have hfind : firstRow db.plans (planOwnedBy inp.id u) = some P := by
      rw [← hid]
      exact find_plan_owned db hpnd P hP u hown
    unfold updatePlan requireUser
    dsimp only
    rw [hfind]
    simp [planUpdateNonempty, ht, hs, hg, ho, hd, htg, hst]
  · intro inp hout hst j hj hid huid
    have hfind : firstRow db.jobs
        (fun x => x.id == inp.id && x.userId == some u) = some j := by
      apply find_unique db.jobs _ j hj (by simp [hid, huid])
      intro y hy hpy
      have hyid : y.id = inp.id := by
        simpa using ((Bool.and_eq_true _ _).mp hpy).1
      exact List.inj_on_of_nodup_map hjnd hy hj (by rw [hyid, hid])
    unfold updateJob requireUser
    dsimp only
    rw [hfind]
    simp [hout, hst]

/-- C5 witness: the no-op update of alice's plan 1 and job 1 in dbAlice
returns the stored rows and the unchanged store. -/
theorem C5_witness :
    updatePlan (some "alice") 99 { id := 1 } dbAlice =
      (.ok planAlice, dbAlice) ∧
    updateJob (some "alice") { id := 1 } dbAlice =
      (.ok jobAlice, dbAlice) :=
  ⟨( C5_theorem "alice" 99 dbAlice (by decide) (by decide)).1 { id := 1 }
      rfl rfl rfl rfl rfl rfl rfl planAlice (by simp [dbAlice]) rfl rfl,
   ( C5_theorem "alice" 99 dbAlice (by decide) (by decide)).2 { id := 1 }
      rfl rfl jobAlice (by simp [dbAlice]) rfl rfl⟩

/-! Claim C7: listMyPlans ownership and status filtering. -/

/-- C7: listMyPlans returns exactly the plans whose ownerId equals the
caller and whose status matches the filter when one is supplied; a plan
of any other owner is never in the result. -/
theorem C7_theorem (u : String) (statusFilter : Option PlanStatus)
    (db : DB) :
    ∃ out, listMyPlans (some u) statusFilter db = (.ok out, db) ∧
      ∀ p : Plan, p ∈ out ↔ (p ∈ db.plans ∧ p.ownerId = u ∧
        ∀ s, statusFilter = some s → p.status = s) := by
  cases statusFilter with
  | none =>
    refine ⟨db.plans.filter (fun p => p.ownerId == u), rfl, ?_⟩
    intro p
    simp [List.mem_filter]
  | some s =>
    refine ⟨_, rfl, ?_⟩
    intro p
    simp only [List.mem_filter, beq_iff_eq]
    constructor
    · rintro ⟨⟨hp, ho⟩, hs⟩
      exact ⟨hp, ho, fun s' hs' => by cases hs'; exact hs⟩
    · rintro ⟨hp, ho, hall⟩
      exact ⟨⟨hp, ho⟩, hall s rfl⟩

/-! Claim C8: createJob defaults. -/

/-- C8: whenever createJob succeeds with jobType and status omitted, the
returned job has jobType full and status pending, and it is exactly the
row appended to the jobs table. -/
theorem C8_theorem (user : Option String) (now : Nat)
    (inp : CreateJobInput) (hjt : inp.jobType = none)
    (hst : inp.status = none) (db : DB) (j : Job) (db' : DB)
    (hok : createJob user now inp db = (.ok j, db')) :
    j.jobType = JobType.full ∧ j.status = JobStatus.pending ∧
    db'.jobs = db.jobs ++ [j] := by
  unfold createJob at hok
  cases huser : requireUser user with
  | error e => rw [huser] at hok; simp at hok
  | ok uid =>
    rw [huser] at hok
    dsimp only at hok
    split at hok
    · split at hok
      · simp only [Prod.mk.injEq, Except.ok.injEq] at hok
        obtain ⟨hj, hdb⟩ := hok
        subst hj
        subst hdb
        exact ⟨by simp [hjt], by simp [hst], by simp⟩
      · simp at hok
    · rw [if_pos rfl] at hok
      simp only [Prod.mk.injEq, Except.ok.injEq] at hok
      obtain ⟨hj, hdb⟩ := hok
      subst hj
      subst hdb
      exact ⟨by simp [hjt], by simp [hst], by simp⟩

/-- C8 witness: createJob on dbAlice with an empty input stores and
returns jobDefaulted, whose jobType is full and status is pending. -/
theorem C8_witness :
    jobDefaulted.jobType = JobType.full ∧
    jobDefaulted.status = JobStatus.pending ∧
    dbAliceJob.jobs = dbAlice.jobs ++ [jobDefaulted] :=
  C8_theorem (some "alice") 4 {} rfl rfl dbAlice jobDefaulted dbAliceJob rfl

/-! Claim C9: deletes are not idempotent. -/

/-- C9: after a successful deleteObjective, deleteStep or deleteMaterial,
repeating the same call (same id, same planId, same caller) fails with
NotFound. -/
theorem C9_theorem (u : String) (db : DB) :
    (∀ inp : DeleteChildInput, ∀ o : Objective, ∀ db' : DB,
      deleteObjective (some u) inp db = (.ok o, db') →
      (deleteObjective (some u) inp db').fst = .error .notFound) ∧
    (∀ inp : DeleteChildInput, ∀ s : Step, ∀ db' : DB,
      deleteStep (some u) inp db = (.ok s, db') →
      (deleteStep (some u) inp db').fst = .error .notFound) ∧
    (∀ inp : DeleteChildInput, ∀ m : Material, ∀ db' : DB,
      deleteMaterial (some u) inp db = (.ok m, db') →
      (deleteMaterial (some u) inp db').fst = .error .notFound) := by
  refine ⟨?_, ?_, ?_⟩
  · intro inp o db' hok
    unfold deleteObjective requireUser at hok ⊢
    dsimp only at hok ⊢
    cases hfp : firstRow db.plans (planOwnedBy inp.planId u) with
    | none => rw [hfp] at hok; simp at hok
    | some plan =>
      rw [hfp] at hok
      cases hfo : firstRow db.objectives
          (fun x => x.id == inp.id && x.planId == inp.planId) with
      | none => rw [hfo] at hok; simp at hok
      | some d =>
        rw [hfo] at hok
        simp only [Prod.mk.injEq, Except.ok.injEq] at hok
        obtain ⟨ho, hdb⟩ := hok
        subst hdb
        dsimp only
        rw [hfp]
        have hnone : firstRow
            (db.objectives.filter
              (fun x => !(x.id == inp.id && x.planId == inp.planId)))
            (fun x => x.id == inp.id && x.planId == inp.planId) = none := by
          rw [firstRow, List.find?_eq_none]
          intro x hx hpx
          have hneg := (List.mem_filter.mp hx).2
          rw [hpx] at hneg
          simp at hneg
        rw [hnone]
  · intro inp s db' hok
    unfold deleteStep requireUser at hok ⊢
    dsimp only at hok ⊢
    cases hfp : firstRow db.plans (planOwnedBy inp.planId u) with
    | none => rw [hfp] at hok; simp at hok
    | some plan =>
      rw [hfp] at hok
      cases hfo : firstRow db.steps
          (fun x => x.id == inp.id && x.planId == inp.planId) with
      | none => rw [hfo] at hok; simp at hok
      | some d =>
        rw [hfo] at hok
        simp only [Prod.mk.injEq, Except.ok.injEq] at hok
        obtain ⟨ho, hdb⟩ := hok
        subst hdb
        dsimp only
        rw [hfp]
        have hnone : firstRow
            (db.steps.filter
              (fun x => !(x.id == inp.id && x.planId == inp.planId)))
            (fun x => x.id == inp.id && x.planId == inp.planId) = none := by
          rw [firstRow, List.find?_eq_none]
          intro x hx hpx
          have hneg := (List.mem_filter.mp hx).2
          rw [hpx] at hneg
          simp at hneg
        rw [hnone]
  · intro inp m db' hok
    unfold deleteMaterial requireUser at hok ⊢
    dsimp only at hok ⊢
    cases hfp : firstRow db.plans (planOwnedBy inp.planId u) with
    | none => rw [hfp] at hok; simp at hok
    | some plan =>
      rw [hfp] at hok
      cases hfo : firstRow db.materials
          (fun x => x.id == inp.id && x.planId == inp.planId) with
      | none => rw [hfo] at hok; simp at hok
      | some d =>
        rw [hfo] at hok
        simp only [Prod.mk.injEq, Except.ok.injEq] at hok
        obtain ⟨ho, hdb⟩ := hok
        subst hdb
        dsimp only
        rw [hfp]
        have hnone : firstRow
            (db.materials.filter
              (fun x => !(x.id == inp.id && x.planId == inp.planId)))
            (fun x => x.id == inp.id && x.planId == inp.planId) = none := by
          rw [firstRow, List.find?_eq_none]
          intro x hx hpx
          have hneg := (List.mem_filter.mp hx).2
          rw [hpx] at hneg
          simp at hneg
        rw [hnone]

/-- C9 witness: deleting alice's objective 1, step 1 and material 1 from
dbAlice once succeeds, and each second delete on the resulting store
fails with NotFound. -/
theorem C9_witness :
    (deleteObjective (some "alice") { id := 1, planId := 1 }
      ((deleteObjective (some "alice") { id := 1, planId := 1 }
        dbAlice).snd)).fst = .error .notFound ∧
    (deleteStep (some "alice") { id := 1, planId := 1 }
      ((deleteStep (some "alice") { id := 1, planId := 1 }
        dbAlice).snd)).fst = .error .notFound ∧
    (deleteMaterial (some "alice") { id := 1, planId := 1 }
      ((deleteMaterial (some "alice") { id := 1, planId := 1 }
        dbAlice).snd)).fst = .error .notFound :=
  ⟨( C9_theorem "alice" dbAlice).1 { id := 1, planId := 1 } objAlice _ rfl,
   ( C9_theorem "alice" dbAlice).2.1 { id := 1, planId := 1 } stepAlice _ rfl,
   ( C9_theorem "alice" dbAlice).2.2 { id := 1, planId := 1 } matAlice _ rfl⟩

/-! Claim C10: a supplied id of 0 takes the create path. -/

/-- C10: saveObjective, saveStep and saveMaterial treat an input id equal
to 0 exactly like an absent id: the call equals the call with id removed,
and when the plan check passes it inserts a new row with a fresh id
rather than updating or failing with NotFound. -/
theorem C10_theorem (u : String) (now : Nat) (db : DB) :
    (∀ inp : SaveObjectiveInput, inp.id = some 0 →
      saveObjective (some u) now inp db =
        saveObjective (some u) now { inp with id := none } db ∧
      ∀ plan, firstRow db.plans (planOwnedBy inp.planId u) = some plan →
        saveObjective (some u) now inp db =
          (.ok { id := db.nextObjectiveId, planId := inp.planId,
                 text := inp.text, order := inp.order.getD 1,
                 createdAt := now },
           { db with
              objectives := db.objectives ++
                  [{ id := db.nextObjectiveId, planId := inp.planId,
                     text := inp.text, order := inp.order.getD 1,
                     createdAt := now }],
              nextObjectiveId := db.nextObjectiveId + 1 })) ∧
    (∀ inp : SaveStepInput, inp.id = some 0 →
      saveStep (some u) now inp db =
        saveStep (some u) now { inp with id := none } db ∧
      ∀ plan, firstRow db.plans (planOwnedBy inp.planId u) = some plan →
        saveStep (some u) now inp db =
          (.ok { id := db.nextStepId, planId := inp.planId,
                 title := inp.title, description := inp.description,
                 durationMinutes := inp.durationMinutes,
                 order := inp.order.getD 1, createdAt := now },
           { db with
              steps := db.steps ++
                  [{ id := db.nextStepId, planId := inp.planId,
                     title := inp.title, description := inp.description,
                     durationMinutes := inp.durationMinutes,
                     order := inp.order.getD 1, createdAt := now }],
              nextStepId := db.nextStepId + 1 })) ∧
    (∀ inp : SaveMaterialInput, inp.id = some 0 →
      saveMaterial (some u) now inp db =
        saveMaterial (some u) now { inp with id := none } db ∧
      ∀ plan, firstRow db.plans (planOwnedBy inp.planId u) = some plan →
        saveMaterial (some u) now inp db =
          (.ok { id := db.nextMaterialId, planId := inp.planId,
                 name := inp.name, type := inp.type, url := inp.url,
                 createdAt := now },
           { db with
              materials := db.materials ++
                  [{ id := db.nextMaterialId, planId := inp.planId,
                     name := inp.name, type := inp.type, url := inp.url,
                     createdAt := now }],
              nextMaterialId := db.nextMaterialId + 1 })) := by
  refine ⟨?_, ?_, ?_⟩
  · intro inp hid
    constructor
    · unfold saveObjective requireUser
      dsimp only
      cases hfp : firstRow db.plans (planOwnedBy inp.planId u) with
      | none => rfl
      | some plan => simp [hid, truthyNat]
    · intro plan hfp
      unfold saveObjective requireUser
      dsimp only
      rw [hfp]
      simp [hid, truthyNat]
  · intro inp hid
    constructor
    · unfold saveStep requireUser
      dsimp only
      cases hfp : firstRow db.plans (planOwnedBy inp.planId u) with
      | none => rfl
      | some plan => simp [hid, truthyNat]
    · intro plan hfp
      unfold saveStep requireUser
      dsimp only
      rw [hfp]
      simp [hid, truthyNat]
  · intro inp hid
    constructor
    · unfold saveMaterial requireUser
      dsimp only
      cases hfp : firstRow db.plans (planOwnedBy inp.planId u) with
      | none => rfl
      | some plan => simp [hid, truthyNat]
    · intro plan hfp
      unfold saveMaterial requireUser
      dsimp only
      rw [hfp]
      simp [hid, truthyNat]

/-- C10 witness: saving an objective, a step and a material with id 0
into alice's plan 1 inserts fresh rows with id 2. -/
theorem C10_witness :
    saveObjective (some "alice") 6
        { id := some 0, planId := 1, text := "t0" } dbAlice =
      (.ok { id := 2, planId := 1, text := "t0", order := 1,
             createdAt := 6 },
       { dbAlice with
          objectives := dbAlice.objectives ++
              [{ id := 2, planId := 1, text := "t0", order := 1,
                 createdAt := 6 }],
          nextObjectiveId := 3 }) ∧
    saveStep (some "alice") 6
        { id := some 0, planId := 1, description := "d0" } dbAlice =
      (.ok { id := 2, planId := 1, description := "d0", order := 1,
             createdAt := 6 },
       { dbAlice with
          steps := dbAlice.steps ++
              [{ id := 2, planId := 1, description := "d0", order := 1,
                 createdAt := 6 }],
          nextStepId := 3 }) ∧
    saveMaterial (some "alice") 6
        { id := some 0, planId := 1, name := "m0" } dbAlice =
      (.ok { id := 2, planId := 1, name := "m0", createdAt := 6 },
       { dbAlice with
          materials := dbAlice.materials ++
              [{ id := 2, planId := 1, name := "m0", createdAt := 6 }],
          nextMaterialId := 3 }) :=
  ⟨(( C10_theorem "alice" 6 dbAlice).1
      { id := some 0, planId := 1, text := "t0" } rfl).2 planAlice rfl,
   (( C10_theorem "alice" 6 dbAlice).2.1
      { id := some 0, planId := 1, description := "d0" } rfl).2 planAlice rfl,
   (( C10_theorem "alice" 6 dbAlice).2.2
      { id := some 0, planId := 1, name := "m0" } rfl).2 planAlice rfl⟩

/-! Claim C6: cross-plan reassignment via save is blocked. -/

/-- C6: saveObjective, saveStep and saveMaterial called with an existing
id whose stored planId differs from the supplied planId fail with
NotFound and leave the store unchanged, even though a row with that id
exists. -/
theorem C6_theorem (u : String) (now : Nat) (db : DB) (hwf : db.WF) :
    (∀ o ∈ db.objectives, ∀ inp : SaveObjectiveInput,
      inp.id = some o.id → o.planId ≠ inp.planId →
      saveObjective (some u) now inp db = (.error .notFound, db)) ∧
    (∀ s ∈ db.steps, ∀ inp : SaveStepInput,
      inp.id = some s.id → s.planId ≠ inp.planId →
      saveStep (some u) now inp db = (.error .notFound, db)) ∧
    (∀ m ∈ db.materials, ∀ inp : SaveMaterialInput,
      inp.id = some m.id → m.planId ≠ inp.planId →
      saveMaterial (some u) now inp db = (.error .notFound, db)) := by
  obtain ⟨hpnd, hond, hsnd, hmnd, hjnd, hppos, hopos, hspos, hmpos, hjpos⟩ :=
    hwf
  refine ⟨?_, ?_, ?_⟩
  · intro o ho inp hid hne
    unfold saveObjective requireUser
    dsimp only
    cases hfp : firstRow db.plans (planOwnedBy inp.planId u) with
    | none => rfl
    | some plan =>
      have hbne : (o.planId != inp.planId) = true := bne_iff_ne.mpr hne
      simp only [hid, Option.getD_some]
      rw [find_by_key Objective.id db.objectives hond o ho]
      have htr : truthyNat (some o.id) = true := by
        simpa [truthyNat] using Nat.pos_iff_ne_zero.mp (hopos o ho)
      simp [htr, hbne]
  · intro s hs inp hid hne
    unfold saveStep requireUser
    dsimp only
    cases hfp : firstRow db.plans (planOwnedBy inp.planId u) with
    | none => rfl
    | some plan =>
      have hbne : (s.planId != inp.planId) = true := bne_iff_ne.mpr hne
      simp only [hid, Option.getD_some]
      rw [find_by_key Step.id db.steps hsnd s hs]
      have htr : truthyNat (some s.id) = true := by
        simpa [truthyNat] using Nat.pos_iff_ne_zero.mp (hspos s hs)
      simp [htr, hbne]
  · intro m hm inp hid hne
    unfold saveMaterial requireUser
    dsimp only
    cases hfp : firstRow db.plans (planOwnedBy inp.planId u) with
    | none => rfl
    | some plan =>
      have hbne : (m.planId != inp.planId) = true := bne_iff_ne.mpr hne
      simp only [hid, Option.getD_some]
      rw [find_by_key Material.id db.materials hmnd m hm]
      have htr : truthyNat (some m.id) = true := by
        simpa [truthyNat] using Nat.pos_iff_ne_zero.mp (hmpos m hm)
      simp [htr, hbne]

/-- C6 witness: alice owns plans 1 and 2; saving objective 1, step 1 or
material 1 (all stored under plan 1) with supplied planId 2 fails with
NotFound and leaves dbAlice unchanged. -/
theorem C6_witness :
    saveObjective (some "alice") 7
        { id := some 1, planId := 2, text := "move" } dbAlice =
      (.error .notFound, dbAlice) ∧
    saveStep (some "alice") 7
        { id := some 1, planId := 2, description := "move" } dbAlice =
      (.error .notFound, dbAlice) ∧
    saveMaterial (some "alice") 7
        { id := some 1, planId := 2, name := "move" } dbAlice =
      (.error .notFound, dbAlice) :=
  ⟨( C6_theorem "alice" 7 dbAlice (by decide)).1 objAlice (by simp [dbAlice])
      { id := some 1, planId := 2, text := "move" } rfl (by decide),
   ( C6_theorem "alice" 7 dbAlice (by decide)).2.1 stepAlice
      (by simp [dbAlice]) { id := some 1, planId := 2, description := "move" }
      rfl (by decide),
   ( C6_theorem "alice" 7 dbAlice (by decide)).2.2 matAlice
      (by simp [dbAlice]) { id := some 1, planId := 2, name := "move" }
      rfl (by decide)⟩

/-! Claim C2: mutations on children of a non-owned plan fail. -/

/-- C2: for every child record (objective, step or material) whose planId
references a plan P, a Save with that record's id or a Delete of that
record by an authenticated user who does not own P fails with NotFound —
whatever planId the save supplies and whether or not the child exists is
never revealed — and the store is returned unchanged. -/
theorem C2_theorem (u : String) (now : Nat) (db : DB) (hwf : db.WF)
    (P : Plan) (hP : P ∈ db.plans) (hown : P.ownerId ≠ u) :
    (∀ o ∈ db.objectives, o.planId = P.id →
      ∀ inp : SaveObjectiveInput, inp.id = some o.id →
        saveObjective (some u) now inp db = (.error .notFound, db)) ∧
    (∀ o ∈ db.objectives, o.planId = P.id →
      ∀ inp : DeleteChildInput, inp.id = o.id → inp.planId = o.planId →
        deleteObjective (some u) inp db = (.error .notFound, db)) ∧
    (∀ s ∈ db.steps, s.planId = P.id →
      ∀ inp : SaveStepInput, inp.id = some s.id →
        saveStep (some u) now inp db = (.error .notFound, db)) ∧
    (∀ s ∈ db.steps, s.planId = P.id →
      ∀ inp : DeleteChildInput, inp.id = s.id → inp.planId = s.planId →
        deleteStep (some u) inp db = (.error .notFound, db)) ∧
    (∀ m ∈ db.materials, m.planId = P.id →
      ∀ inp : SaveMaterialInput, inp.id = some m.id →
        saveMaterial (some u) now inp db = (.error .notFound, db)) ∧
    (∀ m ∈ db.materials, m.planId = P.id →
      ∀ inp : DeleteChildInput, inp.id = m.id → inp.planId = m.planId →
        deleteMaterial (some u) inp db = (.error .notFound, db)) := by
  obtain ⟨hpnd, hond, hsnd, hmnd, hjnd, hppos, hopos, hspos, hmpos, hjpos⟩ :=
    hwf
  refine ⟨?_, ?_, ?_, ?_, ?_, ?_⟩
  · intro o ho hoP inp hid
    unfold saveObjective requireUser
    dsimp only
    cases hfp : firstRow db.plans (planOwnedBy inp.planId u) with
    | none => rfl
    | some plan =>
      have hfp' : db.plans.find? (planOwnedBy inp.planId u) = some plan := hfp
      have hmemp : plan ∈ db.plans := List.mem_of_find?_eq_some hfp'
      have hpp := List.find?_some hfp'
      simp only [planOwnedBy, Bool.and_eq_true, beq_iff_eq] at hpp
      have hneq : inp.planId ≠ P.id := by
        intro h
        have hPP : plan = P :=
          List.inj_on_of_nodup_map hpnd hmemp hP (by rw [hpp.1, h])
        exact hown (by rw [← hPP]; exact hpp.2)
      have hne2 : o.planId ≠ inp.planId := by
        rw [hoP]
        exact Ne.symm hneq
      have hbne : (o.planId != inp.planId) = true := bne_iff_ne.mpr hne2
      simp only [hid, Option.getD_some]
      rw [find_by_key Objective.id db.objectives hond o ho]
      have htr : truthyNat (some o.id) = true := by
        simpa [truthyNat] using Nat.pos_iff_ne_zero.mp (hopos o ho)
      simp [htr, hbne]
  · intro o ho hoP inp _hid hpid
    unfold deleteObjective requireUser
    dsimp only
    rw [hpid, hoP, find_plan_other_owner db hpnd P hP u hown]
  · intro s hs hsP inp hid
    unfold saveStep requireUser
    dsimp only
    cases hfp : firstRow db.plans (planOwnedBy inp.planId u) with
    | none => rfl
    | some plan =>
      have hfp' : db.plans.find? (planOwnedBy inp.planId u) = some plan := hfp
      have hmemp : plan ∈ db.plans := List.mem_of_find?_eq_some hfp'
      have hpp := List.find?_some hfp'
      simp only [planOwnedBy, Bool.and_eq_true, beq_iff_eq] at hpp
      have hneq : inp.planId ≠ P.id := by
        intro h
        have hPP : plan = P :=
          List.inj_on_of_nodup_map hpnd hmemp hP (by rw [hpp.1, h])
        exact hown (by rw [← hPP]; exact hpp.2)
      have hne2 : s.planId ≠ inp.planId := by
        rw [hsP]
        exact Ne.symm hneq
      have hbne : (s.planId != inp.planId) = true := bne_iff_ne.mpr hne2
      simp only [hid, Option.getD_some]
      rw [find_by_key Step.id db.steps hsnd s hs]
      have htr : truthyNat (some s.id) = true := by
        simpa [truthyNat] using Nat.pos_iff_ne_zero.mp (hspos s hs)
      simp [htr, hbne]
  · intro s hs hsP inp _hid hpid
    unfold deleteStep requireUser
    dsimp only
    rw [hpid, hsP, find_plan_other_owner db hpnd P hP u hown]
  · intro m hm hmP inp hid
    unfold saveMaterial requireUser
    dsimp only
    cases hfp : firstRow db.plans (planOwnedBy inp.planId u) with
    | none => rfl
    | some plan =>
      have hfp' : db.plans.find? (planOwnedBy inp.planId u) = some plan := hfp
      have hmemp : plan ∈ db.plans := List.mem_of_find?_eq_some hfp'
      have hpp := List.find?_some hfp'
      simp only [planOwnedBy, Bool.and_eq_true, beq_iff_eq] at hpp
      have hneq : inp.planId ≠ P.id := by
        intro h
        have hPP : plan = P :=
          List.inj_on_of_nodup_map hpnd hmemp hP (by rw [hpp.1, h])
        exact hown (by rw [← hPP]; exact hpp.2)
      have hne2 : m.planId ≠ inp.planId := by
        rw [hmP]
        exact Ne.symm hneq
      have hbne : (m.planId != inp.planId) = true := bne_iff_ne.mpr hne2
      simp only [hid, Option.getD_some]
      rw [find_by_key Material.id db.materials hmnd m hm]
      have htr : truthyNat (some m.id) = true := by
        simpa [truthyNat] using Nat.pos_iff_ne_zero.mp (hmpos m hm)
      simp [htr, hbne]
  · intro m hm hmP inp _hid hpid
    unfold deleteMaterial requireUser
    dsimp only
    rw [hpid, hmP, find_plan_other_owner db hpnd P hP u hown]

/-- C2 witness: bob owns plan 1 of dbBob with one child of each kind;
alice's save and delete attempts on those children all fail with NotFound
and return the store unchanged. -/
theorem C2_witness :
    saveObjective (some "alice") 5
        { id := some 1, planId := 1, text := "x" } dbBob =
      (.error .notFound, dbBob) ∧
    deleteObjective (some "alice") { id := 1, planId := 1 } dbBob =
      (.error .notFound, dbBob) ∧
    saveStep (some "alice") 5
        { id := some 1, planId := 1, description := "x" } dbBob =
      (.error .notFound, dbBob) ∧
    deleteStep (some "alice") { id := 1, planId := 1 } dbBob =
      (.error .notFound, dbBob) ∧
    saveMaterial (some "alice") 5
        { id := some 1, planId := 1, name := "x" } dbBob =
      (.error .notFound, dbBob) ∧
    deleteMaterial (some "alice") { id := 1, planId := 1 } dbBob =
      (.error .notFound, dbBob) :=
  ⟨( C2_theorem "alice" 5 dbBob (by decide) planBob (by simp [dbBob])
      (by decide)).1 objBob (by simp [dbBob]) rfl
      { id := some 1, planId := 1, text := "x" } rfl,
   ( C2_theorem "alice" 5 dbBob (by decide) planBob (by simp [dbBob])
      (by decide)).2.1 objBob (by simp [dbBob]) rfl
      { id := 1, planId := 1 } rfl rfl,
   ( C2_theorem "alice" 5 dbBob (by decide) planBob (by simp [dbBob])
      (by decide)).2.2.1 stepBob (by simp [dbBob]) rfl
      { id := some 1, planId := 1, description := "x" } rfl,
   ( C2_theorem "alice" 5 dbBob (by decide) planBob (by simp [dbBob])
      (by decide)).2.2.2.1 stepBob (by simp [dbBob]) rfl
      { id := 1, planId := 1 } rfl rfl,
   ( C2_theorem "alice" 5 dbBob (by decide) planBob (by simp [dbBob])
      (by decide)).2.2.2.2.1 matBob (by simp [dbBob]) rfl
      { id := some 1, planId := 1, name := "x" } rfl,
   ( C2_theorem "alice" 5 dbBob (by decide) planBob (by simp [dbBob])
      (by decide)).2.2.2.2.2 matBob (by simp [dbBob]) rfl
      { id := 1, planId := 1 } rfl rfl⟩
